import Mathlib

/-!
Verification of the Availability data-model schemas and the MongoDB demo
seed script (seedDatabase). The definitions below are a shallow embedding
of the JavaScript source: the 19 mongoose collections, the seed script
insert batches with their positional foreign-key references, the mongoose
validation semantics actually in force for the options the schemas use,
and the run/exit behaviour of the seed process.
-/

/-- The 19 collections of the data model (one per mongoose model). -/
inductive Coll
  | client
  | designation
  | group
  | inviteUser
  | loggedUser
  | milestone
  | permission
  | project
  | projectDocument
  | role
  | session
  | skill
  | status
  | task
  | technology
  | timelog
  | user
  | userAvailability
  | userBooking
deriving DecidableEq, Repr

/-- A positional foreign-key reference occurring in a seed record: the JS
payload writes, e.g., project_id with value projects[3]._id, which we record
as the field name, the referenced collection, and the positional index into
that collection just-inserted batch. -/
structure FKRef where
  field : String
  target : Coll
  idx : Nat
deriving DecidableEq, Repr

/-- One insertMany call of the seed script: the collection it inserts into
and, for each record of the batch, the list of foreign-key references the
record carries (non-reference literal fields are omitted, they play no role
in the claims about reference wiring). -/
structure SeedStep where
  coll : Coll
  records : List (List FKRef)
deriving Repr
/-- Batch inserted into the client collection by the seed script, keeping each record foreign-key references (12 records). -/
def clientsStep : SeedStep := ⟨Coll.client, List.replicate 12 []⟩

/-- Batch inserted into the designation collection by the seed script, keeping each record foreign-key references (10 records). -/
def designationsStep : SeedStep := ⟨Coll.designation, List.replicate 10 []⟩

/-- Batch inserted into the skill collection by the seed script, keeping each record foreign-key references (20 records). -/
def skillsStep : SeedStep := ⟨Coll.skill, List.replicate 20 []⟩

/-- Batch inserted into the role collection by the seed script, keeping each record foreign-key references (5 records). -/
def rolesStep : SeedStep := ⟨Coll.role, List.replicate 5 []⟩

/-- Batch inserted into the user collection by the seed script, keeping each record foreign-key references (20 records). -/
def usersStep : SeedStep := ⟨Coll.user, [
  [⟨"roles", Coll.role, 0⟩, ⟨"designation", Coll.designation, 0⟩, ⟨"skills", Coll.skill, 0⟩, ⟨"skills", Coll.skill, 1⟩, ⟨"skills", Coll.skill, 2⟩],
  [⟨"roles", Coll.role, 1⟩, ⟨"designation", Coll.designation, 1⟩, ⟨"skills", Coll.skill, 1⟩, ⟨"skills", Coll.skill, 8⟩],
  [⟨"roles", Coll.role, 2⟩, ⟨"designation", Coll.designation, 2⟩, ⟨"skills", Coll.skill, 3⟩, ⟨"skills", Coll.skill, 4⟩],
  [⟨"roles", Coll.role, 1⟩, ⟨"designation", Coll.designation, 3⟩, ⟨"skills", Coll.skill, 5⟩, ⟨"skills", Coll.skill, 6⟩],
  [⟨"roles", Coll.role, 1⟩, ⟨"designation", Coll.designation, 4⟩, ⟨"skills", Coll.skill, 7⟩, ⟨"skills", Coll.skill, 1⟩],
  [⟨"roles", Coll.role, 1⟩, ⟨"designation", Coll.designation, 5⟩, ⟨"skills", Coll.skill, 5⟩, ⟨"skills", Coll.skill, 6⟩, ⟨"skills", Coll.skill, 2⟩],
  [⟨"roles", Coll.role, 1⟩, ⟨"designation", Coll.designation, 1⟩, ⟨"skills", Coll.skill, 0⟩, ⟨"skills", Coll.skill, 2⟩, ⟨"skills", Coll.skill, 9⟩],
  [⟨"roles", Coll.role, 1⟩, ⟨"designation", Coll.designation, 0⟩, ⟨"skills", Coll.skill, 1⟩, ⟨"skills", Coll.skill, 3⟩, ⟨"skills", Coll.skill, 8⟩],
  [⟨"roles", Coll.role, 1⟩, ⟨"designation", Coll.designation, 3⟩, ⟨"skills", Coll.skill, 4⟩, ⟨"skills", Coll.skill, 5⟩],
  [⟨"roles", Coll.role, 1⟩, ⟨"designation", Coll.designation, 5⟩, ⟨"skills", Coll.skill, 5⟩, ⟨"skills", Coll.skill, 6⟩, ⟨"skills", Coll.skill, 13⟩],
  [⟨"roles", Coll.role, 2⟩, ⟨"designation", Coll.designation, 2⟩, ⟨"skills", Coll.skill, 3⟩],
  [⟨"roles", Coll.role, 1⟩, ⟨"designation", Coll.designation, 6⟩, ⟨"skills", Coll.skill, 0⟩, ⟨"skills", Coll.skill, 2⟩, ⟨"skills", Coll.skill, 8⟩, ⟨"skills", Coll.skill, 14⟩],
  [⟨"roles", Coll.role, 1⟩, ⟨"designation", Coll.designation, 1⟩, ⟨"skills", Coll.skill, 14⟩, ⟨"skills", Coll.skill, 15⟩],
  [⟨"roles", Coll.role, 1⟩, ⟨"designation", Coll.designation, 4⟩, ⟨"skills", Coll.skill, 1⟩, ⟨"skills", Coll.skill, 4⟩, ⟨"skills", Coll.skill, 19⟩],
  [⟨"roles", Coll.role, 1⟩, ⟨"designation", Coll.designation, 3⟩, ⟨"skills", Coll.skill, 1⟩, ⟨"skills", Coll.skill, 10⟩],
  [⟨"roles", Coll.role, 1⟩, ⟨"designation", Coll.designation, 1⟩, ⟨"skills", Coll.skill, 16⟩, ⟨"skills", Coll.skill, 17⟩, ⟨"skills", Coll.skill, 18⟩],
  [⟨"roles", Coll.role, 2⟩, ⟨"designation", Coll.designation, 8⟩],
  [⟨"roles", Coll.role, 1⟩, ⟨"designation", Coll.designation, 7⟩],
  [⟨"roles", Coll.role, 1⟩, ⟨"designation", Coll.designation, 0⟩, ⟨"skills", Coll.skill, 4⟩, ⟨"skills", Coll.skill, 11⟩, ⟨"skills", Coll.skill, 19⟩],
  [⟨"roles", Coll.role, 1⟩, ⟨"designation", Coll.designation, 5⟩, ⟨"skills", Coll.skill, 5⟩, ⟨"skills", Coll.skill, 6⟩, ⟨"skills", Coll.skill, 12⟩, ⟨"skills", Coll.skill, 13⟩]]⟩

/-- Batch inserted into the technology collection by the seed script, keeping each record foreign-key references (12 records). -/
def technologiesStep : SeedStep := ⟨Coll.technology, List.replicate 12 []⟩

/-- Batch inserted into the project collection by the seed script, keeping each record foreign-key references (10 records). -/
def projectsStep : SeedStep := ⟨Coll.project, [
  [⟨"client", Coll.client, 0⟩, ⟨"techId", Coll.technology, 0⟩, ⟨"techId", Coll.technology, 4⟩, ⟨"techId", Coll.technology, 8⟩],
  [⟨"client", Coll.client, 1⟩, ⟨"techId", Coll.technology, 0⟩, ⟨"techId", Coll.technology, 4⟩],
  [⟨"client", Coll.client, 2⟩],
  [⟨"client", Coll.client, 5⟩, ⟨"techId", Coll.technology, 1⟩, ⟨"techId", Coll.technology, 4⟩],
  [⟨"client", Coll.client, 9⟩, ⟨"techId", Coll.technology, 0⟩, ⟨"techId", Coll.technology, 4⟩],
  [⟨"client", Coll.client, 7⟩],
  [⟨"client", Coll.client, 6⟩],
  [⟨"client", Coll.client, 8⟩, ⟨"techId", Coll.technology, 3⟩, ⟨"techId", Coll.technology, 4⟩],
  [⟨"client", Coll.client, 11⟩],
  [⟨"client", Coll.client, 10⟩]]⟩

/-- Batch inserted into the status collection by the seed script, keeping each record foreign-key references (6 records). -/
def statusesStep : SeedStep := ⟨Coll.status, List.replicate 6 []⟩

/-- Batch inserted into the milestone collection by the seed script, keeping each record foreign-key references (14 records). -/
def milestonesStep : SeedStep := ⟨Coll.milestone, [
  [⟨"project_id", Coll.project, 0⟩, ⟨"created_by", Coll.user, 2⟩, ⟨"milestone_created_by", Coll.user, 2⟩],
  [⟨"project_id", Coll.project, 0⟩, ⟨"created_by", Coll.user, 2⟩, ⟨"milestone_created_by", Coll.user, 2⟩],
  [⟨"project_id", Coll.project, 1⟩, ⟨"created_by", Coll.user, 2⟩, ⟨"milestone_created_by", Coll.user, 2⟩],
  [⟨"project_id", Coll.project, 1⟩, ⟨"created_by", Coll.user, 2⟩, ⟨"milestone_created_by", Coll.user, 2⟩],
  [⟨"project_id", Coll.project, 2⟩, ⟨"created_by", Coll.user, 10⟩, ⟨"milestone_created_by", Coll.user, 10⟩],
  [⟨"project_id", Coll.project, 3⟩, ⟨"created_by", Coll.user, 2⟩, ⟨"milestone_created_by", Coll.user, 2⟩],
  [⟨"project_id", Coll.project, 4⟩, ⟨"created_by", Coll.user, 10⟩, ⟨"milestone_created_by", Coll.user, 10⟩],
  [⟨"project_id", Coll.project, 5⟩, ⟨"created_by", Coll.user, 16⟩, ⟨"milestone_created_by", Coll.user, 16⟩],
  [⟨"project_id", Coll.project, 6⟩, ⟨"created_by", Coll.user, 2⟩, ⟨"milestone_created_by", Coll.user, 2⟩],
  [⟨"project_id", Coll.project, 7⟩, ⟨"created_by", Coll.user, 10⟩, ⟨"milestone_created_by", Coll.user, 10⟩],
  [⟨"project_id", Coll.project, 7⟩, ⟨"created_by", Coll.user, 10⟩, ⟨"milestone_created_by", Coll.user, 10⟩],
  [⟨"project_id", Coll.project, 8⟩, ⟨"created_by", Coll.user, 16⟩, ⟨"milestone_created_by", Coll.user, 16⟩],
  [⟨"project_id", Coll.project, 8⟩, ⟨"created_by", Coll.user, 16⟩, ⟨"milestone_created_by", Coll.user, 16⟩],
  [⟨"project_id", Coll.project, 9⟩, ⟨"created_by", Coll.user, 2⟩, ⟨"milestone_created_by", Coll.user, 2⟩]]⟩

/-- Batch inserted into the group collection by the seed script, keeping each record foreign-key references (20 records). -/
def groupsStep : SeedStep := ⟨Coll.group, [
  [⟨"project_id", Coll.project, 0⟩, ⟨"milestone_id", Coll.milestone, 0⟩],
  [⟨"project_id", Coll.project, 0⟩, ⟨"milestone_id", Coll.milestone, 0⟩],
  [⟨"project_id", Coll.project, 0⟩, ⟨"milestone_id", Coll.milestone, 0⟩],
  [⟨"project_id", Coll.project, 1⟩, ⟨"milestone_id", Coll.milestone, 2⟩],
  [⟨"project_id", Coll.project, 1⟩, ⟨"milestone_id", Coll.milestone, 2⟩],
  [⟨"project_id", Coll.project, 2⟩, ⟨"milestone_id", Coll.milestone, 4⟩],
  [⟨"project_id", Coll.project, 2⟩, ⟨"milestone_id", Coll.milestone, 4⟩],
  [⟨"project_id", Coll.project, 3⟩, ⟨"milestone_id", Coll.milestone, 5⟩],
  [⟨"project_id", Coll.project, 3⟩, ⟨"milestone_id", Coll.milestone, 5⟩],
  [⟨"project_id", Coll.project, 4⟩, ⟨"milestone_id", Coll.milestone, 6⟩],
  [⟨"project_id", Coll.project, 4⟩, ⟨"milestone_id", Coll.milestone, 6⟩],
  [⟨"project_id", Coll.project, 5⟩, ⟨"milestone_id", Coll.milestone, 7⟩],
  [⟨"project_id", Coll.project, 5⟩, ⟨"milestone_id", Coll.milestone, 7⟩],
  [⟨"project_id", Coll.project, 6⟩, ⟨"milestone_id", Coll.milestone, 8⟩],
  [⟨"project_id", Coll.project, 6⟩, ⟨"milestone_id", Coll.milestone, 8⟩],
  [⟨"project_id", Coll.project, 7⟩, ⟨"milestone_id", Coll.milestone, 9⟩],
  [⟨"project_id", Coll.project, 7⟩, ⟨"milestone_id", Coll.milestone, 9⟩],
  [⟨"project_id", Coll.project, 8⟩, ⟨"milestone_id", Coll.milestone, 11⟩],
  [⟨"project_id", Coll.project, 8⟩, ⟨"milestone_id", Coll.milestone, 11⟩],
  [⟨"project_id", Coll.project, 9⟩, ⟨"milestone_id", Coll.milestone, 13⟩]]⟩

/-- Batch inserted into the task collection by the seed script, keeping each record foreign-key references (34 records). -/
def tasksStep : SeedStep := ⟨Coll.task, [
  [⟨"project_id", Coll.project, 0⟩, ⟨"milestone_id", Coll.milestone, 0⟩, ⟨"group_id", Coll.group, 0⟩, ⟨"task_status", Coll.status, 3⟩, ⟨"assigned_by", Coll.user, 2⟩, ⟨"assigned_to", Coll.user, 1⟩, ⟨"task_created_by", Coll.user, 2⟩, ⟨"user_id", Coll.user, 2⟩],
  [⟨"project_id", Coll.project, 0⟩, ⟨"milestone_id", Coll.milestone, 0⟩, ⟨"group_id", Coll.group, 1⟩, ⟨"task_status", Coll.status, 1⟩, ⟨"assigned_by", Coll.user, 2⟩, ⟨"assigned_to", Coll.user, 0⟩, ⟨"task_created_by", Coll.user, 2⟩],
  [⟨"project_id", Coll.project, 0⟩, ⟨"milestone_id", Coll.milestone, 0⟩, ⟨"group_id", Coll.group, 0⟩, ⟨"task_status", Coll.status, 0⟩, ⟨"assigned_by", Coll.user, 2⟩, ⟨"assigned_to", Coll.user, 1⟩, ⟨"assigned_to", Coll.user, 3⟩, ⟨"task_created_by", Coll.user, 2⟩],
  [⟨"project_id", Coll.project, 0⟩, ⟨"milestone_id", Coll.milestone, 0⟩, ⟨"group_id", Coll.group, 2⟩, ⟨"task_status", Coll.status, 3⟩, ⟨"assigned_by", Coll.user, 2⟩, ⟨"assigned_to", Coll.user, 0⟩, ⟨"task_created_by", Coll.user, 2⟩, ⟨"user_id", Coll.user, 2⟩],
  [⟨"project_id", Coll.project, 0⟩, ⟨"milestone_id", Coll.milestone, 0⟩, ⟨"group_id", Coll.group, 1⟩, ⟨"task_status", Coll.status, 0⟩, ⟨"assigned_by", Coll.user, 2⟩, ⟨"assigned_to", Coll.user, 0⟩, ⟨"assigned_to", Coll.user, 5⟩, ⟨"task_created_by", Coll.user, 2⟩],
  [⟨"project_id", Coll.project, 0⟩, ⟨"milestone_id", Coll.milestone, 0⟩, ⟨"group_id", Coll.group, 0⟩, ⟨"task_status", Coll.status, 1⟩, ⟨"assigned_by", Coll.user, 2⟩, ⟨"assigned_to", Coll.user, 6⟩, ⟨"task_created_by", Coll.user, 2⟩],
  [⟨"project_id", Coll.project, 1⟩, ⟨"milestone_id", Coll.milestone, 2⟩, ⟨"group_id", Coll.group, 3⟩, ⟨"task_status", Coll.status, 3⟩, ⟨"assigned_by", Coll.user, 2⟩, ⟨"assigned_to", Coll.user, 0⟩, ⟨"task_created_by", Coll.user, 2⟩],
  [⟨"project_id", Coll.project, 1⟩, ⟨"milestone_id", Coll.milestone, 2⟩, ⟨"group_id", Coll.group, 4⟩, ⟨"task_status", Coll.status, 1⟩, ⟨"assigned_by", Coll.user, 2⟩, ⟨"assigned_to", Coll.user, 7⟩, ⟨"task_created_by", Coll.user, 2⟩],
  [⟨"project_id", Coll.project, 1⟩, ⟨"milestone_id", Coll.milestone, 2⟩, ⟨"group_id", Coll.group, 3⟩, ⟨"task_status", Coll.status, 2⟩, ⟨"assigned_by", Coll.user, 2⟩, ⟨"assigned_to", Coll.user, 15⟩, ⟨"task_created_by", Coll.user, 2⟩],
  [⟨"project_id", Coll.project, 1⟩, ⟨"milestone_id", Coll.milestone, 2⟩, ⟨"group_id", Coll.group, 4⟩, ⟨"task_status", Coll.status, 0⟩, ⟨"assigned_by", Coll.user, 2⟩, ⟨"assigned_to", Coll.user, 7⟩, ⟨"task_created_by", Coll.user, 2⟩],
  [⟨"project_id", Coll.project, 2⟩, ⟨"milestone_id", Coll.milestone, 4⟩, ⟨"group_id", Coll.group, 5⟩, ⟨"task_status", Coll.status, 1⟩, ⟨"assigned_by", Coll.user, 10⟩, ⟨"assigned_to", Coll.user, 8⟩, ⟨"task_created_by", Coll.user, 10⟩],
  [⟨"project_id", Coll.project, 2⟩, ⟨"milestone_id", Coll.milestone, 4⟩, ⟨"group_id", Coll.group, 6⟩, ⟨"task_status", Coll.status, 0⟩, ⟨"assigned_by", Coll.user, 10⟩, ⟨"assigned_to", Coll.user, 1⟩, ⟨"assigned_to", Coll.user, 6⟩, ⟨"task_created_by", Coll.user, 10⟩],
  [⟨"project_id", Coll.project, 2⟩, ⟨"milestone_id", Coll.milestone, 4⟩, ⟨"group_id", Coll.group, 5⟩, ⟨"task_status", Coll.status, 3⟩, ⟨"assigned_by", Coll.user, 10⟩, ⟨"assigned_to", Coll.user, 18⟩, ⟨"task_created_by", Coll.user, 10⟩],
  [⟨"project_id", Coll.project, 3⟩, ⟨"milestone_id", Coll.milestone, 5⟩, ⟨"group_id", Coll.group, 7⟩, ⟨"task_status", Coll.status, 1⟩, ⟨"assigned_by", Coll.user, 2⟩, ⟨"assigned_to", Coll.user, 8⟩, ⟨"task_created_by", Coll.user, 2⟩],
  [⟨"project_id", Coll.project, 3⟩, ⟨"milestone_id", Coll.milestone, 5⟩, ⟨"group_id", Coll.group, 7⟩, ⟨"task_status", Coll.status, 0⟩, ⟨"assigned_by", Coll.user, 2⟩, ⟨"assigned_to", Coll.user, 6⟩, ⟨"assigned_to", Coll.user, 7⟩, ⟨"task_created_by", Coll.user, 2⟩],
  [⟨"project_id", Coll.project, 3⟩, ⟨"milestone_id", Coll.milestone, 5⟩, ⟨"group_id", Coll.group, 8⟩, ⟨"task_status", Coll.status, 1⟩, ⟨"assigned_by", Coll.user, 2⟩, ⟨"assigned_to", Coll.user, 11⟩, ⟨"task_created_by", Coll.user, 2⟩],
  [⟨"project_id", Coll.project, 4⟩, ⟨"milestone_id", Coll.milestone, 6⟩, ⟨"group_id", Coll.group, 9⟩, ⟨"task_status", Coll.status, 1⟩, ⟨"assigned_by", Coll.user, 10⟩, ⟨"assigned_to", Coll.user, 7⟩, ⟨"task_created_by", Coll.user, 10⟩],
  [⟨"project_id", Coll.project, 4⟩, ⟨"milestone_id", Coll.milestone, 6⟩, ⟨"group_id", Coll.group, 9⟩, ⟨"task_status", Coll.status, 0⟩, ⟨"assigned_by", Coll.user, 10⟩, ⟨"assigned_to", Coll.user, 9⟩, ⟨"task_created_by", Coll.user, 10⟩],
  [⟨"project_id", Coll.project, 4⟩, ⟨"milestone_id", Coll.milestone, 6⟩, ⟨"group_id", Coll.group, 10⟩, ⟨"task_status", Coll.status, 1⟩, ⟨"assigned_by", Coll.user, 10⟩, ⟨"assigned_to", Coll.user, 1⟩, ⟨"task_created_by", Coll.user, 10⟩],
  [⟨"project_id", Coll.project, 5⟩, ⟨"milestone_id", Coll.milestone, 7⟩, ⟨"group_id", Coll.group, 11⟩, ⟨"task_status", Coll.status, 0⟩, ⟨"assigned_by", Coll.user, 16⟩, ⟨"assigned_to", Coll.user, 4⟩, ⟨"task_created_by", Coll.user, 16⟩],
  [⟨"project_id", Coll.project, 5⟩, ⟨"milestone_id", Coll.milestone, 7⟩, ⟨"group_id", Coll.group, 12⟩, ⟨"task_status", Coll.status, 1⟩, ⟨"assigned_by", Coll.user, 16⟩, ⟨"assigned_to", Coll.user, 18⟩, ⟨"assigned_to", Coll.user, 7⟩, ⟨"task_created_by", Coll.user, 16⟩],
  [⟨"project_id", Coll.project, 5⟩, ⟨"milestone_id", Coll.milestone, 7⟩, ⟨"group_id", Coll.group, 12⟩, ⟨"task_status", Coll.status, 0⟩, ⟨"assigned_by", Coll.user, 16⟩, ⟨"assigned_to", Coll.user, 18⟩, ⟨"task_created_by", Coll.user, 16⟩],
  [⟨"project_id", Coll.project, 6⟩, ⟨"milestone_id", Coll.milestone, 8⟩, ⟨"group_id", Coll.group, 13⟩, ⟨"task_status", Coll.status, 3⟩, ⟨"assigned_by", Coll.user, 2⟩, ⟨"assigned_to", Coll.user, 9⟩, ⟨"task_created_by", Coll.user, 2⟩],
  [⟨"project_id", Coll.project, 6⟩, ⟨"milestone_id", Coll.milestone, 8⟩, ⟨"group_id", Coll.group, 13⟩, ⟨"task_status", Coll.status, 1⟩, ⟨"assigned_by", Coll.user, 2⟩, ⟨"assigned_to", Coll.user, 18⟩, ⟨"assigned_to", Coll.user, 11⟩, ⟨"task_created_by", Coll.user, 2⟩],
  [⟨"project_id", Coll.project, 6⟩, ⟨"milestone_id", Coll.milestone, 8⟩, ⟨"group_id", Coll.group, 14⟩, ⟨"task_status", Coll.status, 0⟩, ⟨"assigned_by", Coll.user, 2⟩, ⟨"assigned_to", Coll.user, 1⟩, ⟨"task_created_by", Coll.user, 2⟩],
  [⟨"project_id", Coll.project, 7⟩, ⟨"milestone_id", Coll.milestone, 9⟩, ⟨"group_id", Coll.group, 15⟩, ⟨"task_status", Coll.status, 2⟩, ⟨"assigned_by", Coll.user, 10⟩, ⟨"assigned_to", Coll.user, 6⟩, ⟨"task_created_by", Coll.user, 10⟩],
  [⟨"project_id", Coll.project, 7⟩, ⟨"milestone_id", Coll.milestone, 9⟩, ⟨"group_id", Coll.group, 16⟩, ⟨"task_status", Coll.status, 1⟩, ⟨"assigned_by", Coll.user, 10⟩, ⟨"assigned_to", Coll.user, 7⟩, ⟨"assigned_to", Coll.user, 12⟩, ⟨"task_created_by", Coll.user, 10⟩],
  [⟨"project_id", Coll.project, 7⟩, ⟨"milestone_id", Coll.milestone, 9⟩, ⟨"group_id", Coll.group, 16⟩, ⟨"task_status", Coll.status, 0⟩, ⟨"assigned_by", Coll.user, 10⟩, ⟨"assigned_to", Coll.user, 14⟩, ⟨"task_created_by", Coll.user, 10⟩],
  [⟨"project_id", Coll.project, 8⟩, ⟨"milestone_id", Coll.milestone, 11⟩, ⟨"group_id", Coll.group, 17⟩, ⟨"task_status", Coll.status, 3⟩, ⟨"assigned_by", Coll.user, 16⟩, ⟨"assigned_to", Coll.user, 15⟩, ⟨"task_created_by", Coll.user, 16⟩],
  [⟨"project_id", Coll.project, 8⟩, ⟨"milestone_id", Coll.milestone, 11⟩, ⟨"group_id", Coll.group, 17⟩, ⟨"task_status", Coll.status, 1⟩, ⟨"assigned_by", Coll.user, 16⟩, ⟨"assigned_to", Coll.user, 0⟩, ⟨"task_created_by", Coll.user, 16⟩],
  [⟨"project_id", Coll.project, 8⟩, ⟨"milestone_id", Coll.milestone, 11⟩, ⟨"group_id", Coll.group, 18⟩, ⟨"task_status", Coll.status, 0⟩, ⟨"assigned_by", Coll.user, 16⟩, ⟨"assigned_to", Coll.user, 9⟩, ⟨"assigned_to", Coll.user, 19⟩, ⟨"task_created_by", Coll.user, 16⟩],
  [⟨"project_id", Coll.project, 9⟩, ⟨"milestone_id", Coll.milestone, 13⟩, ⟨"group_id", Coll.group, 19⟩, ⟨"task_status", Coll.status, 1⟩, ⟨"assigned_by", Coll.user, 2⟩, ⟨"assigned_to", Coll.user, 9⟩, ⟨"assigned_to", Coll.user, 19⟩, ⟨"task_created_by", Coll.user, 2⟩],
  [⟨"project_id", Coll.project, 9⟩, ⟨"milestone_id", Coll.milestone, 13⟩, ⟨"group_id", Coll.group, 19⟩, ⟨"task_status", Coll.status, 0⟩, ⟨"assigned_by", Coll.user, 2⟩, ⟨"assigned_to", Coll.user, 1⟩, ⟨"assigned_to", Coll.user, 14⟩, ⟨"task_created_by", Coll.user, 2⟩],
  [⟨"project_id", Coll.project, 9⟩, ⟨"milestone_id", Coll.milestone, 13⟩, ⟨"group_id", Coll.group, 19⟩, ⟨"task_status", Coll.status, 0⟩, ⟨"assigned_by", Coll.user, 2⟩, ⟨"assigned_to", Coll.user, 5⟩, ⟨"task_created_by", Coll.user, 2⟩]]⟩

/-- Records 0 to 34 of the timelogs batch. -/
def timelogsRecsA : List (List FKRef) := [
  [⟨"project_id", Coll.project, 0⟩, ⟨"task_id", Coll.task, 0⟩, ⟨"user_id", Coll.user, 1⟩],
  [⟨"project_id", Coll.project, 0⟩, ⟨"task_id", Coll.task, 0⟩, ⟨"user_id", Coll.user, 1⟩],
  [⟨"project_id", Coll.project, 0⟩, ⟨"task_id", Coll.task, 1⟩, ⟨"user_id", Coll.user, 0⟩],
  [⟨"project_id", Coll.project, 0⟩, ⟨"task_id", Coll.task, 1⟩, ⟨"user_id", Coll.user, 0⟩],
  [⟨"project_id", Coll.project, 0⟩, ⟨"task_id", Coll.task, 3⟩, ⟨"user_id", Coll.user, 0⟩],
  [⟨"project_id", Coll.project, 0⟩, ⟨"task_id", Coll.task, 5⟩, ⟨"user_id", Coll.user, 6⟩],
  [⟨"project_id", Coll.project, 1⟩, ⟨"task_id", Coll.task, 6⟩, ⟨"user_id", Coll.user, 0⟩],
  [⟨"project_id", Coll.project, 1⟩, ⟨"task_id", Coll.task, 7⟩, ⟨"user_id", Coll.user, 7⟩],
  [⟨"project_id", Coll.project, 1⟩, ⟨"task_id", Coll.task, 7⟩, ⟨"user_id", Coll.user, 7⟩],
  [⟨"project_id", Coll.project, 1⟩, ⟨"task_id", Coll.task, 8⟩, ⟨"user_id", Coll.user, 15⟩],
  [⟨"project_id", Coll.project, 1⟩, ⟨"task_id", Coll.task, 8⟩, ⟨"user_id", Coll.user, 15⟩],
  [⟨"project_id", Coll.project, 2⟩, ⟨"task_id", Coll.task, 10⟩, ⟨"user_id", Coll.user, 8⟩],
  [⟨"project_id", Coll.project, 2⟩, ⟨"task_id", Coll.task, 10⟩, ⟨"user_id", Coll.user, 8⟩],
  [⟨"project_id", Coll.project, 2⟩, ⟨"task_id", Coll.task, 12⟩, ⟨"user_id", Coll.user, 18⟩],
  [⟨"project_id", Coll.project, 2⟩, ⟨"task_id", Coll.task, 12⟩, ⟨"user_id", Coll.user, 18⟩],
  [⟨"project_id", Coll.project, 3⟩, ⟨"task_id", Coll.task, 13⟩, ⟨"user_id", Coll.user, 8⟩],
  [⟨"project_id", Coll.project, 3⟩, ⟨"task_id", Coll.task, 15⟩, ⟨"user_id", Coll.user, 11⟩],
  [⟨"project_id", Coll.project, 3⟩, ⟨"task_id", Coll.task, 15⟩, ⟨"user_id", Coll.user, 11⟩],
  [⟨"project_id", Coll.project, 4⟩, ⟨"task_id", Coll.task, 16⟩, ⟨"user_id", Coll.user, 7⟩],
  [⟨"project_id", Coll.project, 4⟩, ⟨"task_id", Coll.task, 16⟩, ⟨"user_id", Coll.user, 7⟩],
  [⟨"project_id", Coll.project, 4⟩, ⟨"task_id", Coll.task, 18⟩, ⟨"user_id", Coll.user, 1⟩],
  [⟨"project_id", Coll.project, 4⟩, ⟨"task_id", Coll.task, 18⟩, ⟨"user_id", Coll.user, 1⟩],
  [⟨"project_id", Coll.project, 5⟩, ⟨"task_id", Coll.task, 20⟩, ⟨"user_id", Coll.user, 18⟩],
  [⟨"project_id", Coll.project, 5⟩, ⟨"task_id", Coll.task, 20⟩, ⟨"user_id", Coll.user, 7⟩],
  [⟨"project_id", Coll.project, 6⟩, ⟨"task_id", Coll.task, 22⟩, ⟨"user_id", Coll.user, 9⟩],
  [⟨"project_id", Coll.project, 6⟩, ⟨"task_id", Coll.task, 22⟩, ⟨"user_id", Coll.user, 9⟩],
  [⟨"project_id", Coll.project, 6⟩, ⟨"task_id", Coll.task, 23⟩, ⟨"user_id", Coll.user, 18⟩],
  [⟨"project_id", Coll.project, 6⟩, ⟨"task_id", Coll.task, 23⟩, ⟨"user_id", Coll.user, 11⟩],
  [⟨"project_id", Coll.project, 6⟩, ⟨"task_id", Coll.task, 23⟩, ⟨"user_id", Coll.user, 18⟩],
  [⟨"project_id", Coll.project, 7⟩, ⟨"task_id", Coll.task, 25⟩, ⟨"user_id", Coll.user, 6⟩],
  [⟨"project_id", Coll.project, 7⟩, ⟨"task_id", Coll.task, 25⟩, ⟨"user_id", Coll.user, 6⟩],
  [⟨"project_id", Coll.project, 7⟩, ⟨"task_id", Coll.task, 25⟩, ⟨"user_id", Coll.user, 6⟩],
  [⟨"project_id", Coll.project, 7⟩, ⟨"task_id", Coll.task, 26⟩, ⟨"user_id", Coll.user, 7⟩],
  [⟨"project_id", Coll.project, 7⟩, ⟨"task_id", Coll.task, 26⟩, ⟨"user_id", Coll.user, 12⟩],
  [⟨"project_id", Coll.project, 8⟩, ⟨"task_id", Coll.task, 28⟩, ⟨"user_id", Coll.user, 15⟩]]

/-- Records 35 to 69 of the timelogs batch. -/
def timelogsRecsB : List (List FKRef) := [
  [⟨"project_id", Coll.project, 8⟩, ⟨"task_id", Coll.task, 28⟩, ⟨"user_id", Coll.user, 15⟩],
  [⟨"project_id", Coll.project, 8⟩, ⟨"task_id", Coll.task, 28⟩, ⟨"user_id", Coll.user, 15⟩],
  [⟨"project_id", Coll.project, 8⟩, ⟨"task_id", Coll.task, 29⟩, ⟨"user_id", Coll.user, 0⟩],
  [⟨"project_id", Coll.project, 8⟩, ⟨"task_id", Coll.task, 29⟩, ⟨"user_id", Coll.user, 0⟩],
  [⟨"project_id", Coll.project, 9⟩, ⟨"task_id", Coll.task, 31⟩, ⟨"user_id", Coll.user, 9⟩],
  [⟨"project_id", Coll.project, 9⟩, ⟨"task_id", Coll.task, 31⟩, ⟨"user_id", Coll.user, 19⟩],
  [⟨"project_id", Coll.project, 9⟩, ⟨"task_id", Coll.task, 31⟩, ⟨"user_id", Coll.user, 9⟩],
  [⟨"project_id", Coll.project, 0⟩, ⟨"task_id", Coll.task, 1⟩, ⟨"user_id", Coll.user, 0⟩],
  [⟨"project_id", Coll.project, 0⟩, ⟨"task_id", Coll.task, 3⟩, ⟨"user_id", Coll.user, 0⟩],
  [⟨"project_id", Coll.project, 0⟩, ⟨"task_id", Coll.task, 5⟩, ⟨"user_id", Coll.user, 6⟩],
  [⟨"project_id", Coll.project, 0⟩, ⟨"task_id", Coll.task, 2⟩, ⟨"user_id", Coll.user, 1⟩],
  [⟨"project_id", Coll.project, 0⟩, ⟨"task_id", Coll.task, 4⟩, ⟨"user_id", Coll.user, 0⟩],
  [⟨"project_id", Coll.project, 1⟩, ⟨"task_id", Coll.task, 7⟩, ⟨"user_id", Coll.user, 7⟩],
  [⟨"project_id", Coll.project, 1⟩, ⟨"task_id", Coll.task, 8⟩, ⟨"user_id", Coll.user, 15⟩],
  [⟨"project_id", Coll.project, 1⟩, ⟨"task_id", Coll.task, 9⟩, ⟨"user_id", Coll.user, 7⟩],
  [⟨"project_id", Coll.project, 1⟩, ⟨"task_id", Coll.task, 6⟩, ⟨"user_id", Coll.user, 0⟩],
  [⟨"project_id", Coll.project, 2⟩, ⟨"task_id", Coll.task, 10⟩, ⟨"user_id", Coll.user, 8⟩],
  [⟨"project_id", Coll.project, 2⟩, ⟨"task_id", Coll.task, 11⟩, ⟨"user_id", Coll.user, 1⟩],
  [⟨"project_id", Coll.project, 2⟩, ⟨"task_id", Coll.task, 12⟩, ⟨"user_id", Coll.user, 18⟩],
  [⟨"project_id", Coll.project, 3⟩, ⟨"task_id", Coll.task, 13⟩, ⟨"user_id", Coll.user, 8⟩],
  [⟨"project_id", Coll.project, 3⟩, ⟨"task_id", Coll.task, 14⟩, ⟨"user_id", Coll.user, 6⟩],
  [⟨"project_id", Coll.project, 3⟩, ⟨"task_id", Coll.task, 15⟩, ⟨"user_id", Coll.user, 11⟩],
  [⟨"project_id", Coll.project, 3⟩, ⟨"task_id", Coll.task, 14⟩, ⟨"user_id", Coll.user, 7⟩],
  [⟨"project_id", Coll.project, 4⟩, ⟨"task_id", Coll.task, 16⟩, ⟨"user_id", Coll.user, 7⟩],
  [⟨"project_id", Coll.project, 4⟩, ⟨"task_id", Coll.task, 17⟩, ⟨"user_id", Coll.user, 9⟩],
  [⟨"project_id", Coll.project, 4⟩, ⟨"task_id", Coll.task, 18⟩, ⟨"user_id", Coll.user, 1⟩],
  [⟨"project_id", Coll.project, 4⟩, ⟨"task_id", Coll.task, 17⟩, ⟨"user_id", Coll.user, 9⟩],
  [⟨"project_id", Coll.project, 5⟩, ⟨"task_id", Coll.task, 19⟩, ⟨"user_id", Coll.user, 4⟩],
  [⟨"project_id", Coll.project, 5⟩, ⟨"task_id", Coll.task, 20⟩, ⟨"user_id", Coll.user, 18⟩],
  [⟨"project_id", Coll.project, 5⟩, ⟨"task_id", Coll.task, 21⟩, ⟨"user_id", Coll.user, 18⟩],
  [⟨"project_id", Coll.project, 5⟩, ⟨"task_id", Coll.task, 19⟩, ⟨"user_id", Coll.user, 4⟩],
  [⟨"project_id", Coll.project, 6⟩, ⟨"task_id", Coll.task, 23⟩, ⟨"user_id", Coll.user, 18⟩],
  [⟨"project_id", Coll.project, 6⟩, ⟨"task_id", Coll.task, 23⟩, ⟨"user_id", Coll.user, 11⟩],
  [⟨"project_id", Coll.project, 6⟩, ⟨"task_id", Coll.task, 24⟩, ⟨"user_id", Coll.user, 1⟩],
  [⟨"project_id", Coll.project, 6⟩, ⟨"task_id", Coll.task, 22⟩, ⟨"user_id", Coll.user, 9⟩]]

/-- Records 70 to 86 of the timelogs batch. -/
def timelogsRecsC : List (List FKRef) := [
  [⟨"project_id", Coll.project, 7⟩, ⟨"task_id", Coll.task, 26⟩, ⟨"user_id", Coll.user, 7⟩],
  [⟨"project_id", Coll.project, 7⟩, ⟨"task_id", Coll.task, 26⟩, ⟨"user_id", Coll.user, 12⟩],
  [⟨"project_id", Coll.project, 7⟩, ⟨"task_id", Coll.task, 27⟩, ⟨"user_id", Coll.user, 14⟩],
  [⟨"project_id", Coll.project, 7⟩, ⟨"task_id", Coll.task, 25⟩, ⟨"user_id", Coll.user, 6⟩],
  [⟨"project_id", Coll.project, 8⟩, ⟨"task_id", Coll.task, 29⟩, ⟨"user_id", Coll.user, 0⟩],
  [⟨"project_id", Coll.project, 8⟩, ⟨"task_id", Coll.task, 30⟩, ⟨"user_id", Coll.user, 9⟩],
  [⟨"project_id", Coll.project, 8⟩, ⟨"task_id", Coll.task, 30⟩, ⟨"user_id", Coll.user, 19⟩],
  [⟨"project_id", Coll.project, 8⟩, ⟨"task_id", Coll.task, 28⟩, ⟨"user_id", Coll.user, 15⟩],
  [⟨"project_id", Coll.project, 9⟩, ⟨"task_id", Coll.task, 31⟩, ⟨"user_id", Coll.user, 19⟩],
  [⟨"project_id", Coll.project, 9⟩, ⟨"task_id", Coll.task, 32⟩, ⟨"user_id", Coll.user, 1⟩],
  [⟨"project_id", Coll.project, 9⟩, ⟨"task_id", Coll.task, 32⟩, ⟨"user_id", Coll.user, 14⟩],
  [⟨"project_id", Coll.project, 9⟩, ⟨"task_id", Coll.task, 33⟩, ⟨"user_id", Coll.user, 5⟩],
  [⟨"project_id", Coll.project, 0⟩, ⟨"task_id", Coll.task, 0⟩, ⟨"user_id", Coll.user, 2⟩],
  [⟨"project_id", Coll.project, 1⟩, ⟨"task_id", Coll.task, 7⟩, ⟨"user_id", Coll.user, 7⟩],
  [⟨"project_id", Coll.project, 2⟩, ⟨"task_id", Coll.task, 11⟩, ⟨"user_id", Coll.user, 10⟩],
  [⟨"project_id", Coll.project, 3⟩, ⟨"task_id", Coll.task, 15⟩, ⟨"user_id", Coll.user, 11⟩],
  [⟨"project_id", Coll.project, 4⟩, ⟨"task_id", Coll.task, 18⟩, ⟨"user_id", Coll.user, 1⟩]]

/-- Batch inserted into the timelog collection by the seed script, keeping each record foreign-key references (87 records). -/
def timelogsStep : SeedStep := ⟨Coll.timelog, timelogsRecsA ++ timelogsRecsB ++ timelogsRecsC⟩

/-- Records 0 to 34 of the inviteUsers batch. -/
def inviteUsersRecsA : List (List FKRef) := [
  [⟨"user_id", Coll.user, 0⟩, ⟨"project_id", Coll.project, 0⟩],
  [⟨"user_id", Coll.user, 1⟩, ⟨"project_id", Coll.project, 0⟩],
  [⟨"user_id", Coll.user, 2⟩, ⟨"project_id", Coll.project, 0⟩],
  [⟨"user_id", Coll.user, 3⟩, ⟨"project_id", Coll.project, 0⟩],
  [⟨"user_id", Coll.user, 5⟩, ⟨"project_id", Coll.project, 0⟩],
  [⟨"user_id", Coll.user, 6⟩, ⟨"project_id", Coll.project, 0⟩],
  [⟨"user_id", Coll.user, 0⟩, ⟨"project_id", Coll.project, 1⟩],
  [⟨"user_id", Coll.user, 2⟩, ⟨"project_id", Coll.project, 1⟩],
  [⟨"user_id", Coll.user, 4⟩, ⟨"project_id", Coll.project, 1⟩],
  [⟨"user_id", Coll.user, 7⟩, ⟨"project_id", Coll.project, 1⟩],
  [⟨"user_id", Coll.user, 15⟩, ⟨"project_id", Coll.project, 1⟩],
  [⟨"user_id", Coll.user, 8⟩, ⟨"project_id", Coll.project, 2⟩],
  [⟨"user_id", Coll.user, 10⟩, ⟨"project_id", Coll.project, 2⟩],
  [⟨"user_id", Coll.user, 18⟩, ⟨"project_id", Coll.project, 2⟩],
  [⟨"user_id", Coll.user, 1⟩, ⟨"project_id", Coll.project, 2⟩],
  [⟨"user_id", Coll.user, 6⟩, ⟨"project_id", Coll.project, 2⟩],
  [⟨"user_id", Coll.user, 2⟩, ⟨"project_id", Coll.project, 3⟩],
  [⟨"user_id", Coll.user, 6⟩, ⟨"project_id", Coll.project, 3⟩],
  [⟨"user_id", Coll.user, 7⟩, ⟨"project_id", Coll.project, 3⟩],
  [⟨"user_id", Coll.user, 8⟩, ⟨"project_id", Coll.project, 3⟩],
  [⟨"user_id", Coll.user, 11⟩, ⟨"project_id", Coll.project, 3⟩],
  [⟨"user_id", Coll.user, 7⟩, ⟨"project_id", Coll.project, 4⟩],
  [⟨"user_id", Coll.user, 9⟩, ⟨"project_id", Coll.project, 4⟩],
  [⟨"user_id", Coll.user, 10⟩, ⟨"project_id", Coll.project, 4⟩],
  [⟨"user_id", Coll.user, 1⟩, ⟨"project_id", Coll.project, 4⟩],
  [⟨"user_id", Coll.user, 16⟩, ⟨"project_id", Coll.project, 5⟩],
  [⟨"user_id", Coll.user, 4⟩, ⟨"project_id", Coll.project, 5⟩],
  [⟨"user_id", Coll.user, 18⟩, ⟨"project_id", Coll.project, 5⟩],
  [⟨"user_id", Coll.user, 7⟩, ⟨"project_id", Coll.project, 5⟩],
  [⟨"user_id", Coll.user, 2⟩, ⟨"project_id", Coll.project, 6⟩],
  [⟨"user_id", Coll.user, 9⟩, ⟨"project_id", Coll.project, 6⟩],
  [⟨"user_id", Coll.user, 18⟩, ⟨"project_id", Coll.project, 6⟩],
  [⟨"user_id", Coll.user, 11⟩, ⟨"project_id", Coll.project, 6⟩],
  [⟨"user_id", Coll.user, 1⟩, ⟨"project_id", Coll.project, 6⟩],
  [⟨"user_id", Coll.user, 10⟩, ⟨"project_id", Coll.project, 7⟩]]

/-- Records 35 to 49 of the inviteUsers batch. -/
def inviteUsersRecsB : List (List FKRef) := [
  [⟨"user_id", Coll.user, 6⟩, ⟨"project_id", Coll.project, 7⟩],
  [⟨"user_id", Coll.user, 7⟩, ⟨"project_id", Coll.project, 7⟩],
  [⟨"user_id", Coll.user, 12⟩, ⟨"project_id", Coll.project, 7⟩],
  [⟨"user_id", Coll.user, 14⟩, ⟨"project_id", Coll.project, 7⟩],
  [⟨"user_id", Coll.user, 16⟩, ⟨"project_id", Coll.project, 8⟩],
  [⟨"user_id", Coll.user, 15⟩, ⟨"project_id", Coll.project, 8⟩],
  [⟨"user_id", Coll.user, 0⟩, ⟨"project_id", Coll.project, 8⟩],
  [⟨"user_id", Coll.user, 9⟩, ⟨"project_id", Coll.project, 8⟩],
  [⟨"user_id", Coll.user, 19⟩, ⟨"project_id", Coll.project, 8⟩],
  [⟨"user_id", Coll.user, 2⟩, ⟨"project_id", Coll.project, 9⟩],
  [⟨"user_id", Coll.user, 9⟩, ⟨"project_id", Coll.project, 9⟩],
  [⟨"user_id", Coll.user, 19⟩, ⟨"project_id", Coll.project, 9⟩],
  [⟨"user_id", Coll.user, 1⟩, ⟨"project_id", Coll.project, 9⟩],
  [⟨"user_id", Coll.user, 14⟩, ⟨"project_id", Coll.project, 9⟩],
  [⟨"user_id", Coll.user, 5⟩, ⟨"project_id", Coll.project, 9⟩]]

/-- Batch inserted into the inviteUser collection by the seed script, keeping each record foreign-key references (50 records). -/
def inviteUsersStep : SeedStep := ⟨Coll.inviteUser, inviteUsersRecsA ++ inviteUsersRecsB⟩

/-- Batch inserted into the permission collection by the seed script, keeping each record foreign-key references (8 records). -/
def permissionsStep : SeedStep := ⟨Coll.permission, [
  [⟨"user_id", Coll.user, 1⟩, ⟨"project_id", Coll.project, 0⟩, ⟨"assigned_by", Coll.user, 2⟩],
  [⟨"user_id", Coll.user, 0⟩, ⟨"project_id", Coll.project, 0⟩, ⟨"assigned_by", Coll.user, 2⟩],
  [⟨"user_id", Coll.user, 6⟩, ⟨"project_id", Coll.project, 0⟩, ⟨"assigned_by", Coll.user, 2⟩],
  [⟨"user_id", Coll.user, 7⟩, ⟨"project_id", Coll.project, 1⟩, ⟨"assigned_by", Coll.user, 2⟩],
  [⟨"user_id", Coll.user, 8⟩, ⟨"project_id", Coll.project, 2⟩, ⟨"assigned_by", Coll.user, 10⟩],
  [⟨"user_id", Coll.user, 18⟩, ⟨"project_id", Coll.project, 2⟩, ⟨"assigned_by", Coll.user, 10⟩],
  [⟨"user_id", Coll.user, 11⟩, ⟨"project_id", Coll.project, 3⟩, ⟨"assigned_by", Coll.user, 2⟩],
  [⟨"user_id", Coll.user, 7⟩, ⟨"project_id", Coll.project, 4⟩, ⟨"assigned_by", Coll.user, 10⟩]]⟩

/-- Batch inserted into the session collection by the seed script, keeping each record foreign-key references (4 records). -/
def sessionsStep : SeedStep := ⟨Coll.session, List.replicate 4 []⟩

/-- Batch inserted into the userAvailability collection by the seed script, keeping each record foreign-key references (10 records). -/
def userAvailabilitiesStep : SeedStep := ⟨Coll.userAvailability, [
  [⟨"user_id", Coll.user, 0⟩, ⟨"project_id", Coll.project, 0⟩, ⟨"session_id", Coll.session, 0⟩, ⟨"session_id", Coll.session, 1⟩, ⟨"session_id", Coll.session, 2⟩],
  [⟨"user_id", Coll.user, 1⟩, ⟨"project_id", Coll.project, 0⟩, ⟨"session_id", Coll.session, 0⟩, ⟨"session_id", Coll.session, 1⟩, ⟨"session_id", Coll.session, 2⟩],
  [⟨"user_id", Coll.user, 0⟩, ⟨"project_id", Coll.project, 0⟩, ⟨"session_id", Coll.session, 0⟩, ⟨"session_id", Coll.session, 1⟩],
  [⟨"user_id", Coll.user, 7⟩, ⟨"project_id", Coll.project, 1⟩, ⟨"session_id", Coll.session, 0⟩, ⟨"session_id", Coll.session, 1⟩, ⟨"session_id", Coll.session, 2⟩],
  [⟨"user_id", Coll.user, 8⟩, ⟨"project_id", Coll.project, 2⟩, ⟨"session_id", Coll.session, 0⟩, ⟨"session_id", Coll.session, 1⟩],
  [⟨"user_id", Coll.user, 11⟩, ⟨"project_id", Coll.project, 3⟩, ⟨"session_id", Coll.session, 0⟩, ⟨"session_id", Coll.session, 1⟩, ⟨"session_id", Coll.session, 2⟩],
  [⟨"user_id", Coll.user, 7⟩, ⟨"project_id", Coll.project, 4⟩, ⟨"session_id", Coll.session, 0⟩, ⟨"session_id", Coll.session, 1⟩],
  [⟨"user_id", Coll.user, 18⟩, ⟨"project_id", Coll.project, 5⟩, ⟨"session_id", Coll.session, 0⟩, ⟨"session_id", Coll.session, 1⟩, ⟨"session_id", Coll.session, 2⟩],
  [⟨"user_id", Coll.user, 9⟩, ⟨"project_id", Coll.project, 6⟩, ⟨"session_id", Coll.session, 0⟩, ⟨"session_id", Coll.session, 1⟩],
  [⟨"user_id", Coll.user, 6⟩, ⟨"project_id", Coll.project, 7⟩, ⟨"session_id", Coll.session, 0⟩, ⟨"session_id", Coll.session, 1⟩, ⟨"session_id", Coll.session, 2⟩]]⟩

/-- Batch inserted into the userBooking collection by the seed script, keeping each record foreign-key references (15 records). -/
def userBookingsStep : SeedStep := ⟨Coll.userBooking, [
  [⟨"user_id", Coll.user, 0⟩, ⟨"bookedBy", Coll.user, 2⟩, ⟨"session_id", Coll.session, 0⟩, ⟨"session_id", Coll.session, 1⟩],
  [⟨"user_id", Coll.user, 1⟩, ⟨"bookedBy", Coll.user, 2⟩, ⟨"session_id", Coll.session, 1⟩],
  [⟨"user_id", Coll.user, 7⟩, ⟨"bookedBy", Coll.user, 2⟩, ⟨"session_id", Coll.session, 0⟩, ⟨"session_id", Coll.session, 1⟩],
  [⟨"user_id", Coll.user, 8⟩, ⟨"bookedBy", Coll.user, 10⟩, ⟨"session_id", Coll.session, 0⟩],
  [⟨"user_id", Coll.user, 11⟩, ⟨"bookedBy", Coll.user, 2⟩, ⟨"session_id", Coll.session, 1⟩],
  [⟨"user_id", Coll.user, 18⟩, ⟨"bookedBy", Coll.user, 16⟩, ⟨"session_id", Coll.session, 0⟩, ⟨"session_id", Coll.session, 1⟩],
  [⟨"user_id", Coll.user, 9⟩, ⟨"bookedBy", Coll.user, 2⟩, ⟨"session_id", Coll.session, 0⟩, ⟨"session_id", Coll.session, 1⟩],
  [⟨"user_id", Coll.user, 6⟩, ⟨"bookedBy", Coll.user, 10⟩, ⟨"session_id", Coll.session, 2⟩],
  [⟨"user_id", Coll.user, 3⟩, ⟨"bookedBy", Coll.user, 2⟩, ⟨"session_id", Coll.session, 0⟩],
  [⟨"user_id", Coll.user, 5⟩, ⟨"bookedBy", Coll.user, 2⟩, ⟨"session_id", Coll.session, 1⟩, ⟨"session_id", Coll.session, 2⟩],
  [⟨"user_id", Coll.user, 15⟩, ⟨"bookedBy", Coll.user, 16⟩, ⟨"session_id", Coll.session, 0⟩],
  [⟨"user_id", Coll.user, 4⟩, ⟨"bookedBy", Coll.user, 16⟩, ⟨"session_id", Coll.session, 1⟩],
  [⟨"user_id", Coll.user, 12⟩, ⟨"bookedBy", Coll.user, 10⟩, ⟨"session_id", Coll.session, 0⟩, ⟨"session_id", Coll.session, 1⟩],
  [⟨"user_id", Coll.user, 14⟩, ⟨"bookedBy", Coll.user, 10⟩, ⟨"session_id", Coll.session, 2⟩],
  [⟨"user_id", Coll.user, 19⟩, ⟨"bookedBy", Coll.user, 2⟩, ⟨"session_id", Coll.session, 0⟩, ⟨"session_id", Coll.session, 1⟩]]⟩

/-- Batch inserted into the loggedUser collection by the seed script, keeping each record foreign-key references (12 records). -/
def loggedUsersStep : SeedStep := ⟨Coll.loggedUser, [
  [⟨"user_id", Coll.user, 0⟩],
  [⟨"user_id", Coll.user, 1⟩],
  [⟨"user_id", Coll.user, 2⟩],
  [⟨"user_id", Coll.user, 3⟩],
  [⟨"user_id", Coll.user, 6⟩],
  [⟨"user_id", Coll.user, 7⟩],
  [⟨"user_id", Coll.user, 8⟩],
  [⟨"user_id", Coll.user, 11⟩],
  [⟨"user_id", Coll.user, 14⟩],
  [⟨"user_id", Coll.user, 15⟩],
  [⟨"user_id", Coll.user, 18⟩],
  [⟨"user_id", Coll.user, 19⟩]]⟩


/-- The 18 insertMany steps of seedDatabase, in the exact execution order of
the source (steps 1 through 18; the ProjectDocument model is imported and
cleared but never populated). -/
def seedSteps : List SeedStep :=
  [clientsStep, designationsStep, skillsStep, rolesStep, usersStep,
   technologiesStep, projectsStep, statusesStep, milestonesStep, groupsStep,
   tasksStep, timelogsStep, inviteUsersStep, permissionsStep, sessionsStep,
   userAvailabilitiesStep, userBookingsStep, loggedUsersStep]

/-- The collections cleared by the Promise.all of deleteMany calls at the
start of seedDatabase, in source order: all 19 collections. -/
def clearedColls : List Coll :=
  [Coll.client, Coll.designation, Coll.group, Coll.inviteUser,
   Coll.loggedUser, Coll.milestone, Coll.permission, Coll.project,
   Coll.projectDocument, Coll.role, Coll.session, Coll.skill, Coll.status,
   Coll.task, Coll.technology, Coll.timelog, Coll.user,
   Coll.userAvailability, Coll.userBooking]

/-- A store-assigned document identifier, modelled as the collection plus the
position of the document in the batch inserted into that collection. -/
abbrev DocId := Coll × Nat

/-- One document inserted by the seed run: the index of the step that
inserted it, its collection, its position in the batch, and its resolved
foreign-key fields (each holding the identifier of the referenced document). -/
structure InsertedDoc where
  stepIdx : Nat
  coll : Coll
  pos : Nat
  fks : List (String × DocId)
deriving DecidableEq, Repr

/-- State of the seed run while executing the insert steps: the batches whose
identifiers have been captured so far (collection and record count per
executed insertMany, in execution order) and the documents inserted so far. -/
structure RunState where
  batches : List (Coll × Nat)
  docs : List InsertedDoc
deriving Repr

/-- Resolving a positional reference at the moment a batch payload is built:
in the JS source the expression target[idx]._id evaluates successfully only
if the variable holding the target batch is already bound (that insertMany
already ran) and idx is within the batch, and it then yields the identifier
of that previously inserted document; otherwise the run throws. -/
def resolveRef (batches : List (Coll × Nat)) (rf : FKRef) : Option DocId :=
  match batches.find? (fun b => b.1 == rf.target) with
  | some b => if rf.idx < b.2 then some (rf.target, rf.idx) else none
  | none => none

/-- Execute one insertMany step: resolve every foreign-key reference of every
record of the batch against the batches captured so far (failure of any
resolution aborts the run), then append the new batch and its documents. -/
def execStep (st : RunState) (i : Nat) (s : SeedStep) : Option RunState :=
  match s.records.mapM (fun rec =>
      rec.mapM (fun rf => (resolveRef st.batches rf).map (fun v => (rf.field, v)))) with
  | none => none
  | some recs =>
    some ⟨st.batches ++ [(s.coll, s.records.length)],
          st.docs ++ recs.enum.map (fun p => ⟨i, s.coll, p.1, p.2⟩)⟩

/-- The populate phase of seedDatabase: the 18 insertMany steps executed in
source order, threading the captured identifiers. -/
def runSeed : Option RunState :=
  seedSteps.enum.foldlM (fun st p => execStep st p.1 p.2) ⟨[], []⟩

/-- Referential integrity of a dataset: every foreign-key field of every
document holds the identifier of a document that is present in the referenced
collection and was inserted at a strictly earlier step. -/
def fkIntegrity (docs : List InsertedDoc) : Bool :=
  docs.all fun d => d.fks.all fun f =>
    docs.any fun d2 => d2.coll == f.2.1 && d2.pos == f.2.2 && d2.stepIdx < d.stepIdx


/-- Index of the insertMany step for a collection in the populate order of
the seed script (18 means the collection is never populated). -/
def stepIdxOf (c : Coll) : Nat :=
  seedSteps.findIdx (fun s => s.coll == c)

/-- The success summary printed by seedDatabase, source lines 3323 to 3340:
each console.log line pairs a printed collection label with the length of the
array returned by the corresponding insertMany call. -/
def seedSummary : List (String × Nat) :=
  [("Clients", clientsStep.records.length),
   ("Designations", designationsStep.records.length),
   ("Skills", skillsStep.records.length),
   ("Roles", rolesStep.records.length),
   ("Users", usersStep.records.length),
   ("Technologies", technologiesStep.records.length),
   ("Projects", projectsStep.records.length),
   ("Statuses", statusesStep.records.length),
   ("Milestones", milestonesStep.records.length),
   ("Groups", groupsStep.records.length),
   ("Tasks", tasksStep.records.length),
   ("TimeLogs", timelogsStep.records.length),
   ("Invite Users", inviteUsersStep.records.length),
   ("Permissions", permissionsStep.records.length),
   ("Sessions", sessionsStep.records.length),
   ("User Availabilities", userAvailabilitiesStep.records.length),
   ("User Bookings", userBookingsStep.records.length),
   ("Logged Users", loggedUsersStep.records.length)]

/-- The Total Documents figure printed by seedDatabase, source lines 3375 to
3379: the literal sum of the 18 batch lengths. -/
def grandTotal : Nat :=
  clientsStep.records.length + designationsStep.records.length +
  skillsStep.records.length + rolesStep.records.length +
  usersStep.records.length + technologiesStep.records.length +
  projectsStep.records.length + statusesStep.records.length +
  milestonesStep.records.length + groupsStep.records.length +
  tasksStep.records.length + timelogsStep.records.length +
  inviteUsersStep.records.length + permissionsStep.records.length +
  sessionsStep.records.length + userAvailabilitiesStep.records.length +
  userBookingsStep.records.length + loggedUsersStep.records.length

/-- Number of records the seed run inserts into a collection (zero for a
collection with no insertMany step, such as ProjectDocument). -/
def insertedCount (c : Coll) : Nat :=
  (seedSteps.filter (fun s => s.coll == c)).foldl
    (fun a s => a + s.records.length) 0

/-- The clear phase of seedDatabase: the Promise.all of deleteMany calls
empties every collection in clearedColls and leaves any other collection
untouched.  A store is modelled by its per-collection record count, the
granularity at which the idempotence claim is stated. -/
def clearPhase (store : Coll → Nat) : Coll → Nat :=
  fun c => if c ∈ clearedColls then 0 else store c

/-- Per-collection record counts after one full seedDatabase run against a
given store: clear everything, then insert the fixed payload. -/
def runCounts (store : Coll → Nat) : Coll → Nat :=
  fun c => clearPhase store c + insertedCount c

/-- The three phases of seedDatabase in which an error can be thrown. -/
inductive Phase
  | connect
  | clear
  | populate
deriving DecidableEq, Repr

/-- Observable outcome of one seedDatabase process run. -/
structure RunOutcome where
  summaryPrinted : Bool
  errorEmitted : Bool
  connectionClosed : Bool
  exitArg : Option Nat
deriving DecidableEq, Repr

/-- Node process exit semantics: process.exit called with no argument exits
with code 0. -/
def processExitCode (arg : Option Nat) : Nat := arg.getD 0

/-- Control flow of seedDatabase (source lines 58 to 3404): the try block
prints the summary when every phase succeeds; the catch block prints the
error details of any thrown error; the finally block always closes the
connection and then calls process.exit() with no argument. -/
def seedDatabase (failAt : Option Phase) : RunOutcome :=
  match failAt with
  | some _ => ⟨false, true, true, none⟩
  | none => ⟨true, false, true, none⟩

/-- A field value in a candidate or constructed document. -/
inductive Value
  | vStr : String → Value
  | vBool : Bool → Value
  | vNum : Nat → Value
  | vNull : Value
  | vId : Coll → Nat → Value
deriving DecidableEq, Repr

/-- How a schema path obtains a value when the candidate omits it.  In
mongoose a default written as a plain expression is evaluated once, when the
schema module is loaded, and the resulting value is shared by every document;
a default written as a function is called again for each document. -/
inductive DefaultSpec
  | noDefault : DefaultSpec
  | value : Value → DefaultSpec
  | fn : (Nat → Value) → DefaultSpec

/-- One path of a mongoose schema, with the options the repository schemas
actually write.  The recognised mongoose option for a mandatory field is
required; several schemas of this repository instead write require, which is
not a mongoose option and is kept here as a separate record field precisely
because mongoose stores it as an unrecognised key and never consults it
during validation.  Array and embedded-document paths are carried with no
constraints here; their element schemas are modelled separately. -/
structure FieldDef where
  name : String
  required : Bool := false
  require : Bool := false
  enum : Option (List String) := none
  dflt : DefaultSpec := DefaultSpec.noDefault

/-- Lookup of a field in a candidate record. -/
def lookupField (rec : List (String × Value)) (n : String) : Option Value :=
  (rec.find? (fun p => p.1 == n)).map Prod.snd

/-- The value a schema path takes for a candidate record at clock value now:
the supplied value when present, otherwise the declared default. -/
def fieldValue (rec : List (String × Value)) (f : FieldDef) (now : Nat) :
    Option Value :=
  match lookupField rec f.name with
  | some v => some v
  | none =>
    match f.dflt with
    | DefaultSpec.noDefault => none
    | DefaultSpec.value v => some v
    | DefaultSpec.fn g => some (g now)

/-- The constraint a validation error reports for a field. -/
inductive ConstraintKind
  | missingRequired
  | notInEnum
deriving DecidableEq, Repr

/-- A mongoose validation error names the offending field and constraint. -/
structure ValidationError where
  field : String
  kind : ConstraintKind
deriving DecidableEq, Repr

/-- Validation of one path, mirroring the mongoose validators the options
generate: the required validator rejects an absent or null value, and the
enum validator rejects a string value outside the declared domain.  Only the
required option produces a required validator; the misspelt require key
produces none. -/
def validateField (rec : List (String × Value)) (now : Nat) (f : FieldDef) :
    Option ValidationError :=
  match fieldValue rec f now with
  | none =>
    if f.required then some ⟨f.name, ConstraintKind.missingRequired⟩ else none
  | some Value.vNull =>
    if f.required then some ⟨f.name, ConstraintKind.missingRequired⟩ else none
  | some (Value.vStr s) =>
    match f.enum with
    | some dom =>
      if dom.contains s then none else some ⟨f.name, ConstraintKind.notInEnum⟩
    | none => none
  | some _ => none

/-- The document mongoose builds for a candidate record: every schema path
that has a supplied or defaulted value, in schema order. -/
def construct (schema : List FieldDef) (rec : List (String × Value))
    (now : Nat) : List (String × Value) :=
  schema.filterMap (fun f => (fieldValue rec f now).map (fun v => (f.name, v)))

/-- The value of one named path of the constructed document. -/
def constructedValue (schema : List FieldDef) (rec : List (String × Value))
    (now : Nat) (n : String) : Option Value :=
  match schema.find? (fun f => f.name == n) with
  | some f => fieldValue rec f now
  | none => none

/-- Validate a candidate record against a schema: the first failing path
reports its error, otherwise the constructed document is returned. -/
def validate (schema : List FieldDef) (rec : List (String × Value))
    (now : Nat) : Except ValidationError (List (String × Value)) :=
  match schema.filterMap (validateField rec now) with
  | [] => Except.ok (construct schema rec now)
  | e :: _ => Except.error e

/-- Validate every candidate of a batch in order; the first validation
failure surfaces as the error. -/
def validateAll (schema : List FieldDef) (now : Nat) :
    List (List (String × Value)) →
    Except ValidationError (List (List (String × Value)))
  | [] => Except.ok []
  | d :: ds =>
    match validate schema d now with
    | Except.error e => Except.error e
    | Except.ok doc =>
      match validateAll schema now ds with
      | Except.error e => Except.error e
      | Except.ok docs => Except.ok (doc :: docs)

/-- insertMany validates every candidate document first and inserts the batch
only when all of them pass; a validation failure surfaces as the error and
leaves the collection contents unchanged. -/
def insertMany (schema : List FieldDef) (cands : List (List (String × Value)))
    (now : Nat) (coll : List (List (String × Value))) :
    Except ValidationError (List (List (String × Value))) :=
  match validateAll schema now cands with
  | Except.error e => Except.error e
  | Except.ok docs => Except.ok (coll ++ docs)

/-- Rendering of a clock value in milliseconds as an ISO 8601 string, the
model of new Date(ms).toISOString(); the claims depend only on the rendering
being a fixed function of the clock value. -/
def isoOfMillis (ms : Nat) : String := "1970-01-01T00:00:00." ++ toString ms

/-- The Group schema, dbschema/groups.js lines 4 to 19.  Every mandatory
marking in this file is spelt require. -/
def GroupSchemaFields : List FieldDef :=
  [{ name := "group_name", dflt := DefaultSpec.value (Value.vStr ("Group Name")) },
   { name := "group_description", dflt := DefaultSpec.value Value.vNull },
   { name := "status", require := true, enum := some [("PROGRESS"), ("COMPLETED")],
     dflt := DefaultSpec.value (Value.vStr ("PROGRESS")) },
   { name := "project_id", require := true },
   { name := "milestone_id", require := false, dflt := DefaultSpec.value Value.vNull },
   { name := "delete_status", require := true, enum := some [("0"), ("1")],
     dflt := DefaultSpec.value (Value.vStr ("1")) }]

/-- The isDeleted instance method of the Group schema, dbschema/groups.js
lines 21 to 23: this.delete_status === the string 0. -/
def isDeleted (doc : List (String × Value)) : Bool :=
  lookupField doc ("delete_status") == some (Value.vStr ("0"))

/-- The Task schema, top-level paths (src/unnamed/part_000 lines 5 to 64).
The assigned_to, comments paths are arrays carried without constraints; the
comment element schema is TaskCommentSchemaFields. -/
def TaskSchemaFields : List FieldDef :=
  [{ name := "project_id", require := true },
   { name := "milestone_id", require := false, dflt := DefaultSpec.value Value.vNull },
   { name := "parent_id", dflt := DefaultSpec.value Value.vNull },
   { name := "group_id", dflt := DefaultSpec.value Value.vNull },
   { name := "task_name", require := true },
   { name := "task_description", dflt := DefaultSpec.value Value.vNull },
   { name := "task_status", dflt := DefaultSpec.value Value.vNull },
   { name := "status_name", dflt := DefaultSpec.value (Value.vStr ("NEW")) },
   { name := "task_priority", dflt := DefaultSpec.value Value.vNull },
   { name := "estimate" },
   { name := "task_start_date", dflt := DefaultSpec.value Value.vNull },
   { name := "task_end_date", dflt := DefaultSpec.value Value.vNull },
   { name := "assigned_by", dflt := DefaultSpec.value Value.vNull },
   { name := "assigned_to" },
   { name := "task_created_by" },
   { name := "comments" },
   { name := "is_task_finished", required := false,
     dflt := DefaultSpec.value (Value.vBool false) },
   { name := "task_logged_time", dflt := DefaultSpec.value (Value.vStr ("00:00")) }]

/-- The embedded comment schema of Task (src/unnamed/part_000 lines 39 to
57), loaded at clock value loadTime: the created_At default is the plain
expression Date.now(), evaluated once at schema definition time, so the
schema stores the load-time clock value itself as the shared default. -/
def TaskCommentSchemaFields (loadTime : Nat) : List FieldDef :=
  [{ name := "comment", dflt := DefaultSpec.value Value.vNull },
   { name := "replies" },
   { name := "user_id", require := true },
   { name := "is_reply", dflt := DefaultSpec.value (Value.vBool false) },
   { name := "created_At", dflt := DefaultSpec.value (Value.vNum loadTime) }]

/-- The TimeLog schema (src/unnamed/part_004 lines 4 to 29), loaded at clock
value loadTime: the date default is the plain expression new
Date(Date.now()).toISOString(), evaluated once at schema definition time. -/
def TimelogSchemaFields (loadTime : Nat) : List FieldDef :=
  [{ name := "project_id", require := true },
   { name := "task_id", dflt := DefaultSpec.value Value.vNull },
   { name := "task_description" },
   { name := "date", dflt := DefaultSpec.value (Value.vStr (isoOfMillis loadTime)) },
   { name := "task_start_time", dflt := DefaultSpec.value Value.vNull },
   { name := "task_end_time", dflt := DefaultSpec.value Value.vNull },
   { name := "task_time_spent" },
   { name := "user_id", require := true },
   { name := "isBillable", dflt := DefaultSpec.value (Value.vBool false) },
   { name := "isBilled", dflt := DefaultSpec.value (Value.vBool false) },
   { name := "delete_status", require := true, enum := some [("0"), ("1")],
     dflt := DefaultSpec.value (Value.vStr ("1")) }]

/-- The Milestone schema (src/unnamed/part_006 lines 4 to 29).  Its
created_date default is an arrow function, so it is re-evaluated for each
document with the then-current clock. -/
def MilestoneSchemaFields : List FieldDef :=
  [{ name := "project_id", require := true },
   { name := "title", require := true },
   { name := "description" },
   { name := "status", require := true, enum := some [("0"), ("1")],
     dflt := DefaultSpec.value (Value.vStr ("1")) },
   { name := "created_by", require := true },
   { name := "created_date",
     dflt := DefaultSpec.fn (fun now => Value.vStr (isoOfMillis now)) },
   { name := "is_current_milestone", dflt := DefaultSpec.value (Value.vBool false) },
   { name := "start_date" },
   { name := "end_date" },
   { name := "milestone_created_by" }]

/-- The InviteUser schema (src/unnamed/part_002 lines 3 to 8). -/
def InviteUserSchemaFields : List FieldDef :=
  [{ name := "user_id" },
   { name := "project_id" },
   { name := "status", require := true, enum := some [("active"), ("deleted")],
     dflt := DefaultSpec.value (Value.vStr ("active")) },
   { name := "isadmin", dflt := DefaultSpec.value (Value.vBool false) }]

/-!
Theorems settling the claims.
-/

/-- Claim C2, counterexample: the seed script populates User at step index 4
but Technology, Status and Session only at step indices 5, 7 and 14, so the
Technology, Status and Session inserts do not precede the User insert. -/
theorem leaf_collections_before_user_counterexample :
    stepIdxOf Coll.user = 4
    ∧ stepIdxOf Coll.technology = 5
    ∧ stepIdxOf Coll.status = 7
    ∧ stepIdxOf Coll.session = 14
    ∧ ¬ stepIdxOf Coll.technology < stepIdxOf Coll.user
    ∧ ¬ stepIdxOf Coll.status < stepIdxOf Coll.user
    ∧ ¬ stepIdxOf Coll.session < stepIdxOf Coll.user := by decide

/-- Claim C2, amended: Client, Designation, Skill and Role are populated
before User, while Technology, Status and Session are populated after User
but each before the first collection that references it (Technology before
Project, Status before Task, Session before UserAvailabilityCalendar and
UserBooking). -/
theorem populate_order_of_reference_collections :
    stepIdxOf Coll.client < stepIdxOf Coll.user
    ∧ stepIdxOf Coll.designation < stepIdxOf Coll.user
    ∧ stepIdxOf Coll.skill < stepIdxOf Coll.user
    ∧ stepIdxOf Coll.role < stepIdxOf Coll.user
    ∧ stepIdxOf Coll.user < stepIdxOf Coll.technology
    ∧ stepIdxOf Coll.technology < stepIdxOf Coll.project
    ∧ stepIdxOf Coll.project < stepIdxOf Coll.status
    ∧ stepIdxOf Coll.status < stepIdxOf Coll.task
    ∧ stepIdxOf Coll.session < stepIdxOf Coll.userAvailability
    ∧ stepIdxOf Coll.session < stepIdxOf Coll.userBooking := by decide

/-- Claim C4, counterexample: a run that fails while connecting does emit the
error, but the finally block calls process.exit() with no argument, so the
process exits with code 0, not a non-zero code. -/
theorem failing_run_exit_code_counterexample :
    (seedDatabase (some Phase.connect)).errorEmitted = true
    ∧ processExitCode (seedDatabase (some Phase.connect)).exitArg = 0 := by
  exact ⟨rfl, rfl⟩

/-- Claim C4, amended: for every failing run of the seed generator the
process emits the causing error, closes the connection, and exits with code
0, because process.exit() is called without an argument in the finally
block. -/
theorem failing_run_emits_error_and_exits_zero (p : Phase) :
    (seedDatabase (some p)).errorEmitted = true
    ∧ (seedDatabase (some p)).connectionClosed = true
    ∧ processExitCode (seedDatabase (some p)).exitArg = 0 := by
  exact ⟨rfl, rfl, rfl⟩

/-- Witness for claim C4 at a run failing in the clear phase. -/
theorem failing_run_emits_error_and_exits_zero_witness :
    (seedDatabase (some Phase.clear)).errorEmitted = true
    ∧ (seedDatabase (some Phase.clear)).connectionClosed = true
    ∧ processExitCode (seedDatabase (some Phase.clear)).exitArg = 0 :=
  failing_run_emits_error_and_exits_zero Phase.clear

/-- Claim C5, counterexample: the data model has 19 collections (all 19 are
cleared), but the success summary lists only 18 collection counts, and the
ProjectDocument collection has no insert step at all. -/
theorem summary_nineteen_collections_counterexample :
    clearedColls.length = 19
    ∧ seedSummary.length = 18
    ∧ Coll.projectDocument ∉ seedSteps.map SeedStep.coll := by decide

/-- Claim C5, amended: the success summary lists 18 collection names, one per
populated collection in populate order (every collection except
ProjectDocument, which is never populated), each with the count of records
created in it, and the printed grand total equals the sum of these 18
per-collection counts (349). -/
theorem summary_counts_and_grand_total :
    seedSummary.map Prod.snd = seedSteps.map (fun s => s.records.length)
    ∧ grandTotal = (seedSummary.map Prod.snd).sum
    ∧ seedSummary.length = 18
    ∧ grandTotal = 349 := by decide

/-- Claim C6: running the seed generator twice in succession against the same
store yields the same per-collection record counts both times; the second
clear phase removes every record of the first run (every collection count is
zeroed) before the fixed payload is re-inserted. -/
theorem reseeding_is_idempotent (store : Coll → Nat) (c : Coll) :
    clearPhase (runCounts store) c = 0
    ∧ runCounts (runCounts store) c = runCounts store c := by
  cases c <;> exact ⟨rfl, rfl⟩

/-- Witness for claim C6 at the empty store and the task collection. -/
theorem reseeding_is_idempotent_witness :
    clearPhase (runCounts (fun _ => 0)) Coll.task = 0
    ∧ runCounts (runCounts (fun _ => 0)) Coll.task
      = runCounts (fun _ => 0) Coll.task :=
  reseeding_is_idempotent (fun _ => 0) Coll.task

/-- Claim C7: the Group instance method isDeleted returns true exactly when
the delete_status field of the record is the string 0, and it returns false
on a Group constructed with the schema defaults, whose delete_status default
is the string 1. -/
theorem group_isDeleted_iff_delete_status_zero :
    (∀ doc : List (String × Value),
      isDeleted doc = true ↔
        lookupField doc ("delete_status") = some (Value.vStr ("0")))
    ∧ (∀ t : Nat, isDeleted (construct GroupSchemaFields [] t) = false) := by
  constructor
  · intro doc
    simp [isDeleted]
  · intro t
    rfl
/-- Witness for claim C7: the default-constructed Group is not deleted. -/
theorem group_isDeleted_default_witness :
    isDeleted (construct GroupSchemaFields [] 0) = false :=
  group_isDeleted_iff_delete_status_zero.2 0


/-- Helper: the constructed value of a named path is the field value of the
schema entry that find? locates for that name. -/
theorem constructedValue_of_find (schema : List FieldDef)
    (rec : List (String × Value)) (t : Nat) (n : String) (f : FieldDef)
    (hf : schema.find? (fun g => g.name == n) = some f) :
    constructedValue schema rec t n = fieldValue rec f t := by
  simp [constructedValue, hf]

/-- Claim C3, code evaluated at the failing inputs: the Task, Group and
Milestone schemas mark their mandatory fields with the key require, which is
not the mongoose option required, so a candidate omitting task_name,
project_id or title passes validation (no ValidationError is produced) and
the insert proceeds; the schemas carry require as true while the effective
required option stays false. -/
theorem misspelt_require_option_skips_required_validation :
    (validate TaskSchemaFields [] 0).isOk = true
    ∧ (validate GroupSchemaFields [] 0).isOk = true
    ∧ (validate MilestoneSchemaFields [] 0).isOk = true
    ∧ (insertMany TaskSchemaFields [[]] 0 []).isOk = true
    ∧ (insertMany GroupSchemaFields [[]] 0 []).isOk = true
    ∧ (insertMany MilestoneSchemaFields [[]] 0 []).isOk = true
    ∧ (TaskSchemaFields.find? (fun f => f.name == ("task_name"))).map
        (fun f => (f.require, f.required)) = some (true, false)
    ∧ (GroupSchemaFields.find? (fun f => f.name == ("project_id"))).map
        (fun f => (f.require, f.required)) = some (true, false)
    ∧ (MilestoneSchemaFields.find? (fun f => f.name == ("title"))).map
        (fun f => (f.require, f.required)) = some (true, false) :=
  ⟨rfl, rfl, rfl, rfl, rfl, rfl, rfl, rfl, rfl⟩

/-- Claim C9: a Task candidate that does not supply task_logged_time,
status_name or is_task_finished is constructed with the schema defaults, the
string 00:00, the string NEW, and the boolean false respectively. -/
theorem task_omitted_fields_get_defaults (rec : List (String × Value))
    (t : Nat)
    (h1 : lookupField rec ("task_logged_time") = none)
    (h2 : lookupField rec ("status_name") = none)
    (h3 : lookupField rec ("is_task_finished") = none) :
    constructedValue TaskSchemaFields rec t ("task_logged_time")
      = some (Value.vStr ("00:00"))
    ∧ constructedValue TaskSchemaFields rec t ("status_name")
      = some (Value.vStr ("NEW"))
    ∧ constructedValue TaskSchemaFields rec t ("is_task_finished")
      = some (Value.vBool false) := by
  refine ⟨?_, ?_, ?_⟩
  · rw [constructedValue_of_find TaskSchemaFields rec t ("task_logged_time")
      ⟨"task_logged_time", false, false, none,
        DefaultSpec.value (Value.vStr ("00:00"))⟩ rfl]
    simp [fieldValue, h1]
  · rw [constructedValue_of_find TaskSchemaFields rec t ("status_name")
      ⟨"status_name", false, false, none,
        DefaultSpec.value (Value.vStr ("NEW"))⟩ rfl]
    simp [fieldValue, h2]
  · rw [constructedValue_of_find TaskSchemaFields rec t ("is_task_finished")
      ⟨"is_task_finished", false, false, none,
        DefaultSpec.value (Value.vBool false)⟩ rfl]
    simp [fieldValue, h3]

/-- Witness for claim C9 at the empty candidate record. -/
theorem task_omitted_fields_get_defaults_witness :
    lookupField [] ("task_logged_time") = none
    ∧ lookupField [] ("status_name") = none
    ∧ lookupField [] ("is_task_finished") = none
    ∧ (constructedValue TaskSchemaFields [] 0 ("task_logged_time")
        = some (Value.vStr ("00:00"))
      ∧ constructedValue TaskSchemaFields [] 0 ("status_name")
        = some (Value.vStr ("NEW"))
      ∧ constructedValue TaskSchemaFields [] 0 ("is_task_finished")
        = some (Value.vBool false)) :=
  ⟨rfl, rfl, rfl, task_omitted_fields_get_defaults [] 0 rfl rfl rfl⟩

/-- Claim C10: the created_At default of Task comments and the date default
of TimeLog are plain expressions evaluated once when the schema module loads
(at clock value t0), so two documents constructed at different clock values
t1 and t2 both carry the identical load-time timestamp, not their own
creation time. -/
theorem schema_load_time_timestamp_defaults (t0 t1 t2 : Nat) (_hne : t1 ≠ t2)
    (r1 r2 r3 r4 : List (String × Value))
    (hc1 : lookupField r1 ("created_At") = none)
    (hc2 : lookupField r2 ("created_At") = none)
    (hd1 : lookupField r3 ("date") = none)
    (hd2 : lookupField r4 ("date") = none) :
    constructedValue (TaskCommentSchemaFields t0) r1 t1 ("created_At")
      = some (Value.vNum t0)
    ∧ constructedValue (TaskCommentSchemaFields t0) r2 t2 ("created_At")
      = some (Value.vNum t0)
    ∧ constructedValue (TimelogSchemaFields t0) r3 t1 ("date")
      = some (Value.vStr (isoOfMillis t0))
    ∧ constructedValue (TimelogSchemaFields t0) r4 t2 ("date")
      = some (Value.vStr (isoOfMillis t0)) := by
  refine ⟨?_, ?_, ?_, ?_⟩
  · rw [constructedValue_of_find (TaskCommentSchemaFields t0) r1 t1
      ("created_At")
      ⟨"created_At", false, false, none,
        DefaultSpec.value (Value.vNum t0)⟩ rfl]
    simp [fieldValue, hc1]
  · rw [constructedValue_of_find (TaskCommentSchemaFields t0) r2 t2
      ("created_At")
      ⟨"created_At", false, false, none,
        DefaultSpec.value (Value.vNum t0)⟩ rfl]
    simp [fieldValue, hc2]
  · rw [constructedValue_of_find (TimelogSchemaFields t0) r3 t1 ("date")
      ⟨"date", false, false, none,
        DefaultSpec.value (Value.vStr (isoOfMillis t0))⟩ rfl]
    simp [fieldValue, hd1]
  · rw [constructedValue_of_find (TimelogSchemaFields t0) r4 t2 ("date")
      ⟨"date", false, false, none,
        DefaultSpec.value (Value.vStr (isoOfMillis t0))⟩ rfl]
    simp [fieldValue, hd2]

/-- Witness for claim C10 at load time 5 and creation times 1 and 2. -/
theorem schema_load_time_timestamp_defaults_witness :
    (1 : Nat) ≠ 2
    ∧ lookupField [] ("created_At") = none
    ∧ lookupField [] ("date") = none
    ∧ (constructedValue (TaskCommentSchemaFields 5) [] 1 ("created_At")
        = some (Value.vNum 5)
      ∧ constructedValue (TaskCommentSchemaFields 5) [] 2 ("created_At")
        = some (Value.vNum 5)
      ∧ constructedValue (TimelogSchemaFields 5) [] 1 ("date")
        = some (Value.vStr (isoOfMillis 5))
      ∧ constructedValue (TimelogSchemaFields 5) [] 2 ("date")
        = some (Value.vStr (isoOfMillis 5))) :=
  ⟨by decide, rfl, rfl,
    schema_load_time_timestamp_defaults 5 1 2 (by decide) [] [] [] []
      rfl rfl rfl rfl⟩

/-- Claim C8: a candidate Group whose status lies outside PROGRESS and
COMPLETED, and a candidate InviteUser whose status lies outside active and
deleted, are rejected by the enum validator with an error naming the status
field, and insertMany surfaces that error while leaving the collection
contents unchanged: no insert happens. -/
theorem enum_violation_rejected_before_insert (s1 s2 : String) (t : Nat)
    (coll1 coll2 : List (List (String × Value)))
    (h1 : s1 ∉ (["PROGRESS", "COMPLETED"] : List String))
    (h2 : s2 ∉ (["active", "deleted"] : List String)) :
    validate GroupSchemaFields [(("status"), Value.vStr s1)] t
      = Except.error ⟨("status"), ConstraintKind.notInEnum⟩
    ∧ validate InviteUserSchemaFields [(("status"), Value.vStr s2)] t
      = Except.error ⟨("status"), ConstraintKind.notInEnum⟩
    ∧ insertMany GroupSchemaFields [[(("status"), Value.vStr s1)]] t coll1
      = Except.error ⟨("status"), ConstraintKind.notInEnum⟩
    ∧ insertMany InviteUserSchemaFields [[(("status"), Value.vStr s2)]] t coll2
      = Except.error ⟨("status"), ConstraintKind.notInEnum⟩ := by
  have hA : ¬ s1 = "PROGRESS" := by intro h; exact h1 (by simp [h])
  have hB : ¬ s1 = "COMPLETED" := by intro h; exact h1 (by simp [h])
  have hC : ¬ s2 = "active" := by intro h; exact h2 (by simp [h])
  have hD : ¬ s2 = "deleted" := by intro h; exact h2 (by simp [h])
  have hg : validate GroupSchemaFields [(("status"), Value.vStr s1)] t
      = Except.error ⟨("status"), ConstraintKind.notInEnum⟩ := by
    simp [validate, validateField, fieldValue, lookupField, GroupSchemaFields,
      hA, hB]
  have hi : validate InviteUserSchemaFields [(("status"), Value.vStr s2)] t
      = Except.error ⟨("status"), ConstraintKind.notInEnum⟩ := by
    simp [validate, validateField, fieldValue, lookupField,
      InviteUserSchemaFields, hC, hD]
  refine ⟨hg, hi, ?_, ?_⟩
  · simp [insertMany, validateAll, hg]
  · simp [insertMany, validateAll, hi]

/-- Witness for claim C8 at status DONE for Group and pending for
InviteUser, against the empty collections. -/
theorem enum_violation_rejected_before_insert_witness :
    ("DONE" : String) ∉ (["PROGRESS", "COMPLETED"] : List String)
    ∧ ("pending" : String) ∉ (["active", "deleted"] : List String)
    ∧ (validate GroupSchemaFields [(("status"), Value.vStr ("DONE"))] 0
        = Except.error ⟨("status"), ConstraintKind.notInEnum⟩
      ∧ validate InviteUserSchemaFields [(("status"), Value.vStr ("pending"))] 0
        = Except.error ⟨("status"), ConstraintKind.notInEnum⟩
      ∧ insertMany GroupSchemaFields [[(("status"), Value.vStr ("DONE"))]] 0 []
        = Except.error ⟨("status"), ConstraintKind.notInEnum⟩
      ∧ insertMany InviteUserSchemaFields
          [[(("status"), Value.vStr ("pending"))]] 0 []
        = Except.error ⟨("status"), ConstraintKind.notInEnum⟩) :=
  ⟨by decide, by decide,
    enum_violation_rejected_before_insert ("DONE") ("pending") 0 [] []
      (by decide) (by decide)⟩

set_option maxRecDepth 10000 in
/-- Claim C1: the seed run completes with every positional foreign-key
reference resolved against an already captured batch (so each insertMany is
issued only after every collection it references has been inserted and its
identifiers captured), and in the resulting dataset every foreign-key field
of every inserted record equals the identifier of a record inserted into the
referenced collection at a strictly earlier step. -/
theorem seed_run_referential_integrity :
    (runSeed.map fun st => fkIntegrity st.docs) = some true := by rfl
